import Mathlib

/-!
# Verification of the AMSLA device-resource and COO-layout core

This file gives a shallow embedding, in Lean 4, of the host-side core of the
AMSLA repository (capacity-bucketed COO layout, device-source specialisation,
device data/kernel handles and the allNodes orchestration), and proves or
refutes the frozen specification claims about it.

Conventions of the embedding:
* C++ `std::string` is modelled as `List Char`.
* C++ `std::vector<T>` is modelled as `List`.
* Machine integers (`uint`, `size_t`) are modelled as `Nat`, with an explicit
  `% 2 ^ 32` where a `size_t`-to-`uint` narrowing happens in the source.
* Fallible code returns `Except String`, the error string being the message
  of the `std::runtime_error` thrown by the source.
* The accelerator driver is opaque: device memory is an explicit list-indexed
  heap, a kernel launch is a function on the contents of the buffers it is
  bound to, and an OpenCL program build is an abstract outcome (success with
  a list of kernel names, or failure with a build log).
-/

namespace Amsla

/-! ## Capacity bucketing

Source: `source/cpp/datastructures/coo/include/private/CooDataStructure.hpp`,
`iComputeClosestPower` and the `switch` in `CooDataStructure<BaseType>`'s
constructor. -/

/-- Models `std::ceil(std::log10(static_cast<double>(n)))` for a `uint`
argument `n`, i.e. for `n < 2^32 ≤ 10^10`.  On that range the double
computation is exact enough that the result is the mathematical
`⌈log10 n⌉`, which this if-chain tabulates threshold by threshold
(`⌈log10 n⌉ = k` exactly when `10^(k-1) < n ≤ 10^k`).  For `n = 0` the C++
computes `ceil(-inf) = -inf`; the subsequent `max(2.0, ·)` then yields `2`
either way, which is why the `0` returned here for `n ≤ 1` is faithful once
composed with `iComputeClosestPower`. -/
def iCeilLog10OfUint (n : Nat) : Nat :=
  if n ≤ 1 then 0
  else if n ≤ 10 then 1
  else if n ≤ 100 then 2
  else if n ≤ 1000 then 3
  else if n ≤ 10000 then 4
  else if n ≤ 100000 then 5
  else if n ≤ 1000000 then 6
  else if n ≤ 10000000 then 7
  else if n ≤ 100000000 then 8
  else if n ≤ 1000000000 then 9
  else 10

/-- The function `iComputeClosestPower` from `private/CooDataStructure.hpp`:
`max(2.0, std::ceil(std::log10(n)))`.  The `check_that(n > 0, ...)`
precondition is compiled out in release builds (see `check_that` below) and
for `n = 0` the floating-point dance still returns `2`, so the function is
total here. -/
def iComputeClosestPower (n : Nat) : Nat :=
  Nat.max 2 (iCeilLog10OfUint n)

/-- The `size_t` → `uint` narrowing applied to `row_indices.size()` when it
is passed to `iComputeClosestPower(uint)`. -/
def uintOf (n : Nat) : Nat := n % 2 ^ 32

/-- The capacity selected by the `switch (nearest_power)` in
`CooDataStructure<BaseType>::CooDataStructure`: cases 2..5 instantiate
`CooDataStructureImpl` with `2e2`, `2e3`, `2e4`, `2e5` elements, and the
`default` branch throws `std::runtime_error("Unsupported size.")`. -/
def selectedCapacity (rowLen : Nat) : Except String Nat :=
  match iComputeClosestPower (uintOf rowLen) with
  | 2 => .ok 200
  | 3 => .ok 2000
  | 4 => .ok 20000
  | 5 => .ok 200000
  | _ => .error ("Unsupported size.")

/-- The capacity chosen by a full `CooDataStructure` construction: the source
computes it from `row_indices.size()` alone, before the three input arrays
are ever compared or copied. -/
def cooSelectedCapacity {α : Type} (row_indices column_indices : List Nat)
    (values : List α) : Except String Nat :=
  selectedCapacity row_indices.length

/-! ## Assertions

Source: `source/cpp/common/source/Assertions.cpp`.  `assert_that` throws
`std::runtime_error(diagnostic)` when the condition is false; `check_that`
delegates to `assert_that` only under `#if DEBUG` and is a no-op in release
builds.  The build mode is made explicit as the `debug` parameter. -/

/-- The function `amsla::common::check_that` (Assertions.cpp, lines 49-54). -/
def check_that (debug : Bool) (must_be_true : Bool) (diagnostic : String) :
    Except String Unit :=
  if debug && !must_be_true then .error diagnostic else .ok ()

/-! ## COO data layout initialisation

Source: `private/CooDataStructure.hpp`, `__DataLayout`, `iInitialiseArray`
and `iInitialiseDataLayout`. -/

/-- The `__DataLayout<BaseType, max_elements>` struct: three parallel
fixed-length arrays plus the scalar fields. -/
structure DataLayout (α : Type) where
  row_indices_ : List Nat
  column_indices_ : List Nat
  values_ : List α
  num_edges_ : Nat
  num_nodes_ : Nat
  max_elements_ : Nat

/-- The function `iInitialiseArray`: `std::copy_n(copy_from.begin(), num_elements,
copy_to)` followed by `std::fill(copy_to + num_elements, copy_to +
max_elements, 0)`.  The C++ is defined (not UB) only when `num_elements ≤
copy_from.length` and `num_elements ≤ max_elements`; on that domain it
yields the first `num_elements` inputs followed by zeros up to
`max_elements`. -/
def iInitialiseArray {α : Type} [Zero α] (copy_from : List α)
    (num_elements max_elements : Nat) : List α :=
  copy_from.take num_elements ++ List.replicate (max_elements - num_elements) 0

/-- The node count computed in `iInitialiseDataLayout`:
`std::set<uint> all_nodes(rows.begin(), rows.end());
all_nodes.insert(cols.begin(), cols.end()); all_nodes.size()`. -/
def iCountDistinctNodes (row_indices column_indices : List Nat) : Nat :=
  ((row_indices ++ column_indices).toFinset).card

/-- The C++ validation condition
`row_indices.size() == column_indices.size() == values.size()` in
`iInitialiseDataLayout` (line 126).  In C++ `==` is left-associative, so
this chains as `(r == c) == v`: the boolean result of `r == c` is promoted
to an integer (0 or 1) and compared with `v`.  It is NOT the pairwise
equality of the three sizes. -/
def iSameSizeCheckCondition (r c v : Nat) : Bool :=
  (if r = c then 1 else 0) == v

/-- The function `iInitialiseDataLayout` (private/CooDataStructure.hpp, lines 119-142):
runs the (chained-comparison) size check through `check_that`, then fills
the three arrays with `num_elements := row_indices.size()` and sets the
scalar fields. -/
def iInitialiseDataLayout {α : Type} [Zero α] (debug : Bool)
    (max_elements : Nat) (row_indices column_indices : List Nat)
    (values : List α) : Except String (DataLayout α) :=
  match check_that debug
    (iSameSizeCheckCondition row_indices.length column_indices.length
      values.length)
    "All the input vectors must have the same size." with
  | .error e => .error e
  | .ok _ =>
    let num_elements := row_indices.length
    .ok { row_indices_ :=
            iInitialiseArray row_indices num_elements max_elements
          column_indices_ :=
            iInitialiseArray column_indices num_elements max_elements
          values_ := iInitialiseArray values num_elements max_elements
          num_edges_ := num_elements
          num_nodes_ := iCountDistinctNodes row_indices column_indices
          max_elements_ := max_elements }

/-- The full construction path of `CooDataStructure<BaseType>`: the
precondition check inside `iComputeClosestPower`, the capacity `switch`,
and `iInitialiseDataLayout` run by the `CooDataStructureImpl` constructor —
everything that happens before the layout is uploaded to the accelerator
with `moveToDevice`. -/
def cooConstruct {α : Type} [Zero α] (debug : Bool)
    (row_indices column_indices : List Nat) (values : List α) :
    Except String (Nat × DataLayout α) :=
  match check_that debug (decide (0 < uintOf row_indices.length))
    "The input must be greater than 0." with
  | .error e => .error e
  | .ok _ =>
    match selectedCapacity row_indices.length with
    | .error e => .error e
    | .ok cap =>
      match iInitialiseDataLayout debug cap row_indices column_indices
        values with
      | .error e => .error e
      | .ok layout => .ok (cap, layout)

/-! ## Evaluation lemmas for the capacity switch -/

set_option maxHeartbeats 2000000 in
/-- Closed form of `selectedCapacity` on the `uint` range. -/
theorem selectedCapacity_eval (N : Nat) (hN : N < 2 ^ 32) :
    selectedCapacity N =
      if N ≤ 100 then .ok 200
      else if N ≤ 1000 then .ok 2000
      else if N ≤ 10000 then .ok 20000
      else if N ≤ 100000 then .ok 200000
      else .error ("Unsupported size.") := by
  unfold selectedCapacity uintOf
  rw [Nat.mod_eq_of_lt hN]
  unfold iComputeClosestPower iCeilLog10OfUint
  split_ifs <;> first | rfl | omega

/-- A successfully selected capacity is at least the input length
(on the `uint` range). -/
theorem selectedCapacity_ge (N C : Nat) (hN : N < 2 ^ 32)
    (h : selectedCapacity N = .ok C) : N ≤ C := by
  rw [selectedCapacity_eval N hN] at h
  split_ifs at h <;> (injection h with h1; omega)

/-! ## Claim C1 -/

/-- C1, counterexample.  The claim says the chosen capacity is the smallest
element of {200, 2000, 20000, 200000} that is ≥ N, so that N = 150 selects
200 and N = 200000 selects 200000.  The code disagrees at both sample
points: `ceil(log10 150) = 3` selects 2000, and `ceil(log10 200000) = 6`
falls into the `default` switch branch, which throws
`std::runtime_error("Unsupported size.")` instead of constructing with
capacity 200000. -/
theorem selectedCapacity_not_smallest_bucket :
    selectedCapacity 150 = Except.ok 2000 ∧
    (Except.ok 2000 : Except String Nat) ≠ Except.ok 200 ∧
    selectedCapacity 200000 = Except.error ("Unsupported size.") := by
  refine ⟨rfl, by simp, rfl⟩

/-- C1 (amended): for a construction from arrays whose row-index array has
length N, the chosen capacity is `2·10^k` for `k = max(2, ⌈log10 N⌉)`:
200 for N ≤ 100, 2000 for 101 ≤ N ≤ 1000, 20000 for 1001 ≤ N ≤ 10000,
200000 for 10001 ≤ N ≤ 100000; and every N ≥ 100001 (including N = 200000
and N = 200001) fails construction with the runtime error
"Unsupported size.". -/
theorem cooConstruction_capacity_buckets {α : Type}
    (rows cols : List Nat) (vals : List α) (h1 : 1 ≤ rows.length) :
    (rows.length ≤ 100 →
      cooSelectedCapacity rows cols vals = .ok 200) ∧
    (101 ≤ rows.length → rows.length ≤ 1000 →
      cooSelectedCapacity rows cols vals = .ok 2000) ∧
    (1001 ≤ rows.length → rows.length ≤ 10000 →
      cooSelectedCapacity rows cols vals = .ok 20000) ∧
    (10001 ≤ rows.length → rows.length ≤ 100000 →
      cooSelectedCapacity rows cols vals = .ok 200000) ∧
    (100001 ≤ rows.length → rows.length < 2 ^ 32 →
      cooSelectedCapacity rows cols vals = .error ("Unsupported size.")) := by
  unfold cooSelectedCapacity
  refine ⟨?_, ?_, ?_, ?_, ?_⟩ <;> intros <;>
    rw [selectedCapacity_eval _ (by omega)] <;>
    split_ifs <;> first | rfl | omega

/-- C1 witness: at N = 150 the amended statement applies and yields
capacity 2000. -/
theorem cooConstruction_capacity_buckets_witness :
    cooSelectedCapacity (List.replicate 150 7) [3] ([2] : List Nat) =
      Except.ok 2000 := by
  have h := cooConstruction_capacity_buckets (List.replicate 150 7) [3]
    ([2] : List Nat) (by simp)
  exact h.2.1 (by simp) (by simp)

/-! ## Claim C2 -/

/-- C2: the claim — that every not-all-equal-length triple and every
zero-length input is rejected with an `InvalidArgument` error before any
accelerator interaction — is violated by the code.  The length condition in
`iInitialiseDataLayout` chains as `(r == c) == v`, and `check_that` is
compiled out in release builds, so: (a) with assertions enabled (DEBUG),
lengths (2, 3, 0) pass validation and construction proceeds to the
accelerator upload; (b) in a release build a mismatched triple with lengths
(2, 3, 1) passes; (c) in a release build the zero-length input passes and
selects capacity 200; and, conversely, (d) with assertions enabled a VALID
equal-length input of length 4 is rejected, because `(4 == 4) == 4`
compares `1` with `4`. -/
theorem cooConstruct_mismatched_lengths_not_rejected :
    (cooConstruct true [1, 2] [1, 2, 3] ([] : List Nat)).isOk = true ∧
    (cooConstruct false [1, 2] [1, 2, 3] ([4] : List Nat)).isOk = true ∧
    (cooConstruct false [] [] ([] : List Nat)).isOk = true ∧
    (cooConstruct true [1, 2, 3, 4] [2, 3, 4, 5]
      ([9, 9, 9, 9] : List Nat)).isOk = false := by
  refine ⟨rfl, rfl, rfl, rfl⟩

/-! ## Claim C4 -/

/-- C4: after a successful construction with capacity C from three
equal-length arrays of length N, each stored array holds the N input
elements in order followed by zeros up to C; the stored edge count is N;
the stored node count is the cardinality of the set union of the row and
column index arrays; and the stored capacity field is C. -/
theorem cooConstruct_layout_fields {α : Type} [Zero α] (debug : Bool)
    (rows cols : List Nat) (vals : List α) (C : Nat) (L : DataLayout α)
    (hc : cols.length = rows.length) (hv : vals.length = rows.length)
    (hN : rows.length < 2 ^ 32)
    (h : cooConstruct debug rows cols vals = Except.ok (C, L)) :
    L.row_indices_ = rows ++ List.replicate (C - rows.length) 0 ∧
    L.column_indices_ = cols ++ List.replicate (C - rows.length) 0 ∧
    L.values_ = vals ++ List.replicate (C - rows.length) 0 ∧
    L.num_edges_ = rows.length ∧
    L.num_nodes_ = ((rows ++ cols).toFinset).card ∧
    L.max_elements_ = C ∧
    rows.length ≤ C := by
  unfold cooConstruct at h
  split at h
  · exact absurd h (by simp)
  · split at h
    · exact absurd h (by simp)
    · rename_i cap hB
      unfold iInitialiseDataLayout at h
      split at h
      · exact absurd h (by simp)
      · rename_i layout hD
        split at hD
        · exact absurd hD (by simp)
        · simp only [Except.ok.injEq] at hD
          simp only [Except.ok.injEq, Prod.mk.injEq] at h
          obtain ⟨hcap, hL⟩ := h
          subst hcap
          subst hL
          subst hD
          refine ⟨?_, ?_, ?_, rfl, rfl, rfl,
            selectedCapacity_ge _ _ hN hB⟩
          · simp [iInitialiseArray]
          · simp [iInitialiseArray, ← hc]
          · simp [iInitialiseArray, ← hv]

/-- C4 witness: the concrete construction from rows {1,2,3,4},
columns {2,3,4,5}, values {9,8,7,6} yields capacity 200 and the padded
layout described by the claim. -/
theorem cooConstruct_layout_fields_witness :
    ∃ L : DataLayout Nat,
      cooConstruct false [1, 2, 3, 4] [2, 3, 4, 5] [9, 8, 7, 6] =
        Except.ok (200, L) ∧
      L.row_indices_ = [1, 2, 3, 4] ++ List.replicate 196 0 ∧
      L.num_edges_ = 4 ∧ L.num_nodes_ = 5 ∧ L.max_elements_ = 200 := by
  obtain ⟨L, hL⟩ : ∃ L : DataLayout Nat,
      cooConstruct false [1, 2, 3, 4] [2, 3, 4, 5] [9, 8, 7, 6] =
        Except.ok (200, L) := ⟨_, rfl⟩
  have h2 := cooConstruct_layout_fields false [1, 2, 3, 4] [2, 3, 4, 5]
    [9, 8, 7, 6] 200 L (by decide) (by decide) (by decide) hL
  refine ⟨L, hL, ?_, h2.2.2.2.1, ?_, h2.2.2.2.2.2.1⟩
  · rw [h2.1]; rfl
  · rw [h2.2.2.2.2.1]; decide

/-! ## Claim C9 -/

/-- C9: the capacity bucket is computed from the length of the row-index
array alone: two constructions with equal row lengths select the same
capacity, whatever the column and value arrays are. -/
theorem cooSelectedCapacity_row_length_only {α β : Type}
    (r1 c1 : List Nat) (v1 : List α) (r2 c2 : List Nat) (v2 : List β)
    (h : r1.length = r2.length) :
    cooSelectedCapacity r1 c1 v1 = cooSelectedCapacity r2 c2 v2 := by
  unfold cooSelectedCapacity
  rw [h]

/-- C9 witness: two concrete constructions with row length 2 but entirely
different column/value arrays select the same capacity. -/
theorem cooSelectedCapacity_row_length_only_witness :
    cooSelectedCapacity [1, 2] [3, 4] ([5, 6] : List Nat) =
      cooSelectedCapacity [7, 8] [] ([true] : List Bool) :=
  cooSelectedCapacity_row_length_only [1, 2] [3, 4] [5, 6] [7, 8] []
    [true] (by decide)

/-! ## Type bridge and host/device transfers

Source: `common/include/details/DeviceManagement.hpp`.  `ToDeviceType`
maps `uint ↦ cl_uint`, `float ↦ cl_float`, `double ↦ cl_double`; each pair
is the same machine type, so the element conversions performed by
`std::copy` in `initialiseDeviceArray` and `moveToHost` are identity casts.
Floating-point values are identified by their bit patterns (`Nat`): the
transfers only ever copy them, no arithmetic is performed. -/

/-- Values of type `float` (= `cl_float`), identified by bit pattern. -/
def FloatBits : Type := Nat

/-- Values of type `double` (= `cl_double`), identified by bit pattern. -/
def DoubleBits : Type := Nat

instance : Zero FloatBits := ⟨(0 : Nat)⟩

instance : Zero DoubleBits := ⟨(0 : Nat)⟩

/-- The `ToDeviceType` bridge for one host type: the host→device element
conversion applied on upload and the device→host conversion applied on
download. -/
structure TypeBridge (α β : Type) where
  toDevice : α → β
  toHost : β → α

/-- `ToDeviceType<uint>::type = cl_uint`: identity on 32-bit values. -/
def uintBridge : TypeBridge Nat Nat := ⟨id, id⟩

/-- `ToDeviceType<float>::type = cl_float`: identity. -/
def floatBridge : TypeBridge FloatBits FloatBits := ⟨id, id⟩

/-- `ToDeviceType<double>::type = cl_double`: identity. -/
def doubleBridge : TypeBridge DoubleBits DoubleBits := ⟨id, id⟩

/-- Access-type enum (`amsla::common::AccessType`). -/
inductive AccessType
  | READ_ONLY
  | WRITE_ONLY
  | READ_AND_WRITE
deriving DecidableEq

/-- A `DeviceData` handle carrying typed contents, as produced by the typed
transfer helpers: one accelerator allocation holding the written elements,
its byte size and its access mode. -/
structure DeviceDataTyped (β : Type) where
  contents : List β
  num_bytes_ : Nat
  access_type_ : AccessType

/-- The function `initialiseDeviceArray` (details/DeviceManagement.hpp,
lines 49-65): element-wise `std::copy` of all of `copy_from` (performing
the host→device conversion) followed by a zero fill from `num_elements` up
to `max_elements`.  Defined for `copy_from.length ≤ max_elements`, the C++
writing out of bounds otherwise. -/
def initialiseDeviceArray {α β : Type} [Zero β] (br : TypeBridge α β)
    (copy_from : List α) (max_elements : Nat) : List β :=
  copy_from.map br.toDevice ++
    List.replicate (max_elements - copy_from.length) 0

/-- The function `convertToDeviceArray` (lines 69-78): allocates
`DeviceType[array_size]`, initialises it with `max_elements = array_size`
(so no padding), and returns it with `num_bytes = sizeof(DeviceType) *
array_size`; the element size is abstracted to `elem_bytes`. -/
def convertToDeviceArray {α β : Type} [Zero β] (br : TypeBridge α β)
    (elem_bytes : Nat) (copy_from : List α) : List β × Nat :=
  (initialiseDeviceArray br copy_from copy_from.length,
   elem_bytes * copy_from.length)

/-- The function `moveToDevice` for arrays (lines 82-96): convert the host
array, write the raw bytes to a fresh device allocation with the given
access mode, and return the `DeviceData`. -/
def moveToDevice {α β : Type} [Zero β] (br : TypeBridge α β)
    (elem_bytes : Nat) (array : List α) (mem_flag : AccessType) :
    DeviceDataTyped β :=
  let conv := convertToDeviceArray br elem_bytes array
  ⟨conv.1, conv.2, mem_flag⟩

/-- The function `moveToHost` for arrays (lines 113-131): blocking read of
`num_elements` device elements, then element-wise copy into a host vector
(performing the device→host conversion).  Defined for `num_elements ≤`
the buffer's element count, the C++ read being out of bounds otherwise. -/
def moveToHost {α β : Type} (br : TypeBridge α β)
    (device_data : DeviceDataTyped β) (num_elements : Nat) : List α :=
  (device_data.contents.take num_elements).map br.toHost

/-! ## Claim C5 -/

/-- C5: for every host array of element type uint, float, or double,
`moveToDevice` followed by `moveToHost` with the array's element count
returns the original array: the host→device conversion composed with the
device→host conversion is the identity. -/
theorem moveToDevice_moveToHost_roundtrip :
    (∀ (xs : List Nat) (m : AccessType),
      moveToHost uintBridge (moveToDevice uintBridge 4 xs m) xs.length
        = xs) ∧
    (∀ (xs : List FloatBits) (m : AccessType),
      moveToHost floatBridge (moveToDevice floatBridge 4 xs m) xs.length
        = xs) ∧
    (∀ (xs : List DoubleBits) (m : AccessType),
      moveToHost doubleBridge (moveToDevice doubleBridge 8 xs m) xs.length
        = xs) := by
  refine ⟨?_, ?_, ?_⟩ <;> intro xs m <;>
    simp [moveToHost, moveToDevice, convertToDeviceArray,
      initialiseDeviceArray, uintBridge, floatBridge, doubleBridge]

/-! ## Device memory heap and `DeviceData` cloning

Source: `common/source/DeviceManagement.cpp`.  Accelerator memory is an
explicit heap of buffers indexed by allocation order; `cl::Buffer` handles
are indices into it. -/

/-- The accelerator memory: one entry per allocated buffer, in allocation
order; contents are `cl_uint` words. -/
structure DeviceHeap where
  bufs : List (List Nat)

/-- Allocating a `cl::Buffer` in the default context: a fresh index. -/
def allocateBuffer (h : DeviceHeap) (contents : List Nat) :
    DeviceHeap × Nat :=
  (⟨h.bufs ++ [contents]⟩, h.bufs.length)

/-- Reading a buffer's readable contents (`enqueueReadBuffer`). -/
def readBufferContents (h : DeviceHeap) (i : Nat) : List Nat :=
  h.bufs.getD i []

/-- Overwriting a buffer's contents. -/
def writeBufferContents (h : DeviceHeap) (i : Nat) (xs : List Nat) :
    DeviceHeap :=
  ⟨h.bufs.set i xs⟩

/-- The function `iCloneOpenClBuffer` (DeviceManagement.cpp, lines
196-210): allocate a new buffer of the same byte size and access mode,
`enqueueCopyBuffer` from the original, and wait on the copy event. -/
def iCloneOpenClBuffer (h : DeviceHeap) (fromId : Nat) : DeviceHeap × Nat :=
  allocateBuffer h (readBufferContents h fromId)

/-- A `DeviceData` handle: the owned buffer plus the byte size and access
mode remembered by `DeviceDataImpl`. -/
structure DeviceData where
  bufId : Nat
  num_bytes_ : Nat
  access_type_ : AccessType

/-- The `DeviceDataImpl` copy constructor (DeviceManagement.cpp, lines
358-363), also used by copy assignment (line 392): clone the OpenCL buffer
and copy the scalar fields. -/
def deviceDataCopy (h : DeviceHeap) (d : DeviceData) :
    DeviceHeap × DeviceData :=
  let cl := iCloneOpenClBuffer h d.bufId
  (cl.1, ⟨cl.2, d.num_bytes_, d.access_type_⟩)

/-- A kernel launch whose only bound buffer argument is buffer `i`: the
accelerator-side computation is opaque and modelled as the function `f` it
applies to that buffer's contents; no other buffer is touched. -/
def runKernelOnBuffer (h : DeviceHeap) (i : Nat)
    (f : List Nat → List Nat) : DeviceHeap :=
  writeBufferContents h i (f (readBufferContents h i))

/-! ## Claim C6 -/

/-- C6: copying a `DeviceData` allocates new accelerator memory of the same
byte size and access mode and performs a device-side copy, so the copy is
never aliased with the original: mutating only the copy through a kernel
leaves the original's readable contents unchanged, while the copy reads
back the kernel's result applied to the original contents. -/
theorem deviceDataCopy_is_deep (h : DeviceHeap) (d : DeviceData)
    (h2 : DeviceHeap) (dcopy : DeviceData) (f : List Nat → List Nat)
    (hvalid : d.bufId < h.bufs.length)
    (hcopy : deviceDataCopy h d = (h2, dcopy)) :
    dcopy.num_bytes_ = d.num_bytes_ ∧
    dcopy.access_type_ = d.access_type_ ∧
    dcopy.bufId ≠ d.bufId ∧
    readBufferContents (runKernelOnBuffer h2 dcopy.bufId f) d.bufId
      = readBufferContents h d.bufId ∧
    readBufferContents (runKernelOnBuffer h2 dcopy.bufId f) dcopy.bufId
      = f (readBufferContents h d.bufId) := by
  unfold deviceDataCopy iCloneOpenClBuffer allocateBuffer at hcopy
  simp only [Prod.mk.injEq] at hcopy
  obtain ⟨hh2, hd⟩ := hcopy
  subst hh2
  subst hd
  refine ⟨rfl, rfl, by simp; omega, ?_, ?_⟩
  · unfold runKernelOnBuffer writeBufferContents readBufferContents
    simp only [List.getD_eq_getElem?_getD]
    rw [List.getElem?_set_ne (by omega), List.getElem?_append,
      if_pos hvalid]
  · unfold runKernelOnBuffer writeBufferContents readBufferContents
    simp only [List.getD_eq_getElem?_getD]
    rw [List.getElem?_set_self (by simp), List.getElem?_concat_length]
    simp

/-- C6 witness: for original contents {1,2,3,4} and an increment-by-one
kernel run on the clone, the clone reads back {2,3,4,5} while the original
still reads back {1,2,3,4}. -/
theorem deviceDataCopy_is_deep_witness :
    readBufferContents
        (runKernelOnBuffer ⟨[[1, 2, 3, 4], [1, 2, 3, 4]]⟩ 1
          (List.map (· + 1))) 0 = [1, 2, 3, 4] ∧
    readBufferContents
        (runKernelOnBuffer ⟨[[1, 2, 3, 4], [1, 2, 3, 4]]⟩ 1
          (List.map (· + 1))) 1 = [2, 3, 4, 5] := by
  have h := deviceDataCopy_is_deep ⟨[[1, 2, 3, 4]]⟩
    ⟨0, 16, AccessType.READ_AND_WRITE⟩ ⟨[[1, 2, 3, 4], [1, 2, 3, 4]]⟩
    ⟨1, 16, AccessType.READ_AND_WRITE⟩ (List.map (· + 1))
    (by decide) rfl
  exact ⟨h.2.2.2.1.trans rfl, h.2.2.2.2.trans (by decide)⟩

/-! ## The allNodes orchestration

Source: `common/source/DataStructure.cpp`, `DataStructureImpl::allNodes`
(lines 66-105); the private `CooDataStructureImpl::allNodes`
(private/CooDataStructure.hpp, lines 169-232) performs the same
allocation/binding/launch/readback sequence.  The accelerator-side dedup
kernel is opaque: its observable effect is the contents it leaves in the
output buffer and the count it leaves in the count buffer. -/

/-- The four buffers bound as kernel arguments. -/
inductive KernelArgSlot
  | layoutBuffer
  | outputBuffer
  | countBuffer
  | workspaceBuffer
deriving DecidableEq

/-- What `allNodes` asks of the accelerator: allocation sizes (in
elements, in allocation order), the positional argument bindings (in
`setArg`/`setArgument` call order), and the launch configuration. -/
structure AllNodesTrace where
  outputAllocElements : Nat
  countAllocElements : Nat
  workspaceAllocElements : Nat
  argBindings : List (Nat × KernelArgSlot)
  globalThreads : Nat
  localThreads : Nat

/-- The launch size `static_cast<uint>(std::ceil(vector_size /
static_cast<double>(64)) * 64)`.  Division by 64 and the multiply-back are
exact in double for any `uint` size, so this is the exact ceiling
rounding. -/
def allNodesNumThreads (vector_size : Nat) : Nat :=
  ((vector_size + 63) / 64) * 64

/-- `std::vector::resize(n)`: truncate to `n`, or extend with
value-initialised (zero) elements. -/
def vectorResize (xs : List Nat) (n : Nat) : List Nat :=
  xs.take n ++ List.replicate (n - xs.length) 0

/-- The function `allNodes` (DataStructure.cpp, lines 66-105) for a layout
of capacity `capacity`: allocate output (capacity elements), count (one
element) and workspace (2·capacity elements) buffers; bind layout, output,
count, workspace to argument slots 0, 1, 2, 3; launch with
`allNodesNumThreads capacity` global threads; block; read back `capacity`
output elements and the count, and resize the output to the count.
`kernelOutput`/`kernelCount` are the opaque kernel's results: the contents
of the output buffer after completion and the value in the count buffer. -/
def allNodesRun (capacity : Nat) (kernelOutput : List Nat)
    (kernelCount : Nat) : AllNodesTrace × List Nat :=
  ( { outputAllocElements := capacity
      countAllocElements := 1
      workspaceAllocElements := 2 * capacity
      argBindings := [(0, .layoutBuffer), (1, .outputBuffer),
        (2, .countBuffer), (3, .workspaceBuffer)]
      globalThreads := allNodesNumThreads capacity
      localThreads := allNodesNumThreads capacity },
    vectorResize (kernelOutput.take capacity) kernelCount )

/-! ## Claim C3 -/

/-- C3: on every call, `allNodes` on a layout of capacity C allocates an
output buffer of C elements, a one-element count buffer and a workspace
buffer of 2·C elements; binds the layout, output, count and workspace
buffers to argument slots 0, 1, 2, 3 in that fixed order; launches with a
global thread count equal to C rounded up to the next multiple of the
work-group size (64); and, after completion, reads back the count n and
returns exactly the first n elements of the output buffer. -/
theorem allNodes_contract (C n : Nat) (out : List Nat)
    (hlen : out.length = C) (hn : n ≤ C) :
    (allNodesRun C out n).1.outputAllocElements = C ∧
    (allNodesRun C out n).1.countAllocElements = 1 ∧
    (allNodesRun C out n).1.workspaceAllocElements = 2 * C ∧
    (allNodesRun C out n).1.argBindings = [(0, .layoutBuffer),
      (1, .outputBuffer), (2, .countBuffer), (3, .workspaceBuffer)] ∧
    64 ∣ (allNodesRun C out n).1.globalThreads ∧
    C ≤ (allNodesRun C out n).1.globalThreads ∧
    (allNodesRun C out n).1.globalThreads < C + 64 ∧
    (allNodesRun C out n).2 = out.take n := by
  refine ⟨rfl, rfl, rfl, rfl, ⟨(C + 63) / 64, ?_⟩, ?_, ?_, ?_⟩
  · show ((C + 63) / 64) * 64 = 64 * ((C + 63) / 64)
    exact Nat.mul_comm _ _
  · show C ≤ ((C + 63) / 64) * 64
    omega
  · show ((C + 63) / 64) * 64 < C + 64
    omega
  · show vectorResize (out.take C) n = out.take n
    rw [← hlen, List.take_length]
    unfold vectorResize
    rw [hlen]
    simp [Nat.sub_eq_zero_of_le hn]

set_option maxRecDepth 4000 in
/-- C3 witness: capacity 200, a concrete post-kernel output buffer and
count 3 give back exactly the first three output elements. -/
theorem allNodes_contract_witness :
    (allNodesRun 200 (9 :: 8 :: 7 :: List.replicate 197 0) 3).1.globalThreads
      = 256 ∧
    (allNodesRun 200 (9 :: 8 :: 7 :: List.replicate 197 0) 3).2
      = [9, 8, 7] := by
  have h := allNodes_contract 200 3 (9 :: 8 :: 7 :: List.replicate 197 0)
    (by decide) (by omega)
  refine ⟨?_, h.2.2.2.2.2.2.2.trans (by decide)⟩
  have h64 := h.2.2.2.2.1
  have hlow := h.2.2.2.2.2.1
  have hhigh := h.2.2.2.2.2.2.1
  omega

/-! ## String replacement and macro substitution

Source: `common/source/DeviceManagement.cpp`, `iReplaceSubstring` (lines
121-142) and `DeviceSourceImpl::substituteMacro` (lines 273-276); the same
`iReplaceSubstring` appears verbatim in `private/CooDataStructure.hpp`
(lines 51-74).  Strings are `List Char`. -/

/-- The semantics of `std::string::find(pat, 0)`: the index of the
leftmost occurrence of `pat` in `s` (`none` for `npos`).  An empty pattern
occurs at index 0. -/
def findSubstring (s pat : List Char) : Option Nat :=
  match s with
  | [] => if pat.isEmpty then some 0 else none
  | c :: cs =>
    if pat.isPrefixOf (c :: cs) then some 0
    else (findSubstring cs pat).map (· + 1)

/-- The `while (true)` loop of `iReplaceSubstring`, with the string split
at the current search `index`: `done` is the part before `index` (already
final — the loop never rescans it, because `index` advances past each
inserted replacement) and `rest` the part from `index` on.  `fuel` bounds
the iteration count; with a non-empty pattern every iteration consumes at
least one character of `rest`, so `iReplaceSubstring` below supplies
enough fuel for the loop to run to completion. -/
def iReplaceLoop (pat rep : List Char) :
    Nat → List Char → List Char → List Char
  | 0, done, rest => done ++ rest
  | Nat.succ fuel, done, rest =>
    match findSubstring rest pat with
    | none => done ++ rest
    | some i =>
      iReplaceLoop pat rep fuel (done ++ rest.take i ++ rep)
        (rest.drop (i + pat.length))

/-- The function `iReplaceSubstring` (DeviceManagement.cpp, lines
121-142): repeatedly find the next occurrence of `to_replace` at or after
the current index, splice in `replace_with`, and resume searching right
after the inserted text.  For an empty `to_replace` the C++ loop never
terminates (each iteration re-finds the empty pattern without passing the
end); that case is rejected by the function's own `checkThat` precondition
in a DEBUG build, is never reachable from `substituteMacro`, and is
guarded here explicitly. -/
def iReplaceSubstring (in_string to_replace replace_with : List Char) :
    List Char :=
  if to_replace.isEmpty then in_string
  else iReplaceLoop to_replace replace_with (in_string.length + 1) []
    in_string

/-- The method `DeviceSourceImpl::substituteMacro` (DeviceManagement.cpp,
lines 273-276): replace every occurrence of the token
`"__" + macro_name + "__"` in the source text with `substitute_text`. -/
def substituteMacroIn (macro_name substitute_text text : List Char) :
    List Char :=
  iReplaceSubstring text (('_' :: '_' :: macro_name) ++ ['_', '_'])
    substitute_text

/-- Specification-level replacement, following the spec's words: scan the
source left to right; wherever the (non-empty) token occurs, emit the
replacement and skip past the token; otherwise keep the character.  This
is the reference meaning of "replaces every occurrence of a macro token
with text". -/
def specReplaceGo (pat rep : List Char) : List Char → List Char
  | [] => []
  | c :: cs =>
    if h : 0 < pat.length ∧ pat.isPrefixOf (c :: cs) then
      rep ++ specReplaceGo pat rep (List.drop pat.length (c :: cs))
    else
      c :: specReplaceGo pat rep cs
termination_by s => s.length
decreasing_by
  · obtain ⟨h1, h2⟩ := h
    simp only [List.length_drop, List.length_cons]
    omega
  · simp only [List.length_cons]
    omega

/-- Specification-level replace-all, with the same empty-token guard as
the embedded `iReplaceSubstring`. -/
def specReplaceAll (pat rep s : List Char) : List Char :=
  if pat.isEmpty then s else specReplaceGo pat rep s

/-- An occurrence reported by `findSubstring` fits inside the string. -/
theorem findSubstring_some_le (s pat : List Char) (i : Nat)
    (h : findSubstring s pat = some i) : i + pat.length ≤ s.length := by
  induction s generalizing i with
  | nil =>
    simp only [findSubstring] at h
    split_ifs at h with hp
    · injection h with h
      subst h
      rw [List.isEmpty_iff] at hp
      subst hp
      simp
  | cons c cs ih =>
    simp only [findSubstring] at h
    split_ifs at h with hp
    · injection h with h
      subst h
      have := (List.isPrefixOf_iff_prefix.mp hp).length_le
      simpa using this
    · cases hf : findSubstring cs pat with
      | none => rw [hf] at h; cases h
      | some j =>
        rw [hf] at h
        injection h with h
        subst h
        have := ih j hf
        simp only [List.length_cons]
        omega

/-- When the pattern does not occur, the specification replacement is the
identity. -/
theorem specReplaceGo_of_none (pat rep s : List Char)
    (h : findSubstring s pat = none) : specReplaceGo pat rep s = s := by
  induction s with
  | nil => simp [specReplaceGo]
  | cons c cs ih =>
    simp only [findSubstring] at h
    split_ifs at h with hp
    · cases hf : findSubstring cs pat with
      | none =>
        rw [specReplaceGo]
        rw [dif_neg (by simp [hp])]
        rw [ih hf]
      | some j => rw [hf] at h; cases h

/-- Unfolding the specification replacement at the leftmost occurrence. -/
theorem specReplaceGo_of_some (pat rep : List Char) (hp : 0 < pat.length) :
    ∀ (s : List Char) (i : Nat), findSubstring s pat = some i →
      specReplaceGo pat rep s =
        s.take i ++ rep ++ specReplaceGo pat rep (s.drop (i + pat.length))
  | [], i, h => by
    simp only [findSubstring] at h
    split_ifs at h with he
    · rw [List.isEmpty_iff] at he
      subst he
      simp at hp
  | c :: cs, i, h => by
    simp only [findSubstring] at h
    split_ifs at h with hpre
    · injection h with h
      subst h
      rw [specReplaceGo]
      rw [dif_pos ⟨hp, hpre⟩]
      simp
    · cases hf : findSubstring cs pat with
      | none => rw [hf] at h; cases h
      | some j =>
        rw [hf] at h
        injection h with h
        subst h
        rw [specReplaceGo]
        rw [dif_neg (by intro hc; exact absurd hc.2 hpre)]
        rw [specReplaceGo_of_some pat rep hp cs j hf]
        have hidx : j + 1 + pat.length = (j + pat.length) + 1 := by omega
        rw [hidx, List.drop_succ_cons, List.take_succ_cons]
        simp

/-- The fuel-indexed loop agrees with the specification replacement when
given enough fuel and a non-empty pattern. -/
theorem iReplaceLoop_eq_spec (pat rep : List Char) (hp : 0 < pat.length) :
    ∀ (fuel : Nat) (done rest : List Char), rest.length < fuel →
      iReplaceLoop pat rep fuel done rest =
        done ++ specReplaceGo pat rep rest := by
  intro fuel
  induction fuel with
  | zero => intro done rest hf; omega
  | succ fuel ih =>
    intro done rest hf
    cases hfind : findSubstring rest pat with
    | none =>
      simp only [iReplaceLoop, hfind]
      rw [specReplaceGo_of_none pat rep rest hfind]
    | some i =>
      have hbound := findSubstring_some_le rest pat i hfind
      simp only [iReplaceLoop, hfind]
      rw [ih (done ++ rest.take i ++ rep) (rest.drop (i + pat.length))
        (by simp only [List.length_drop]; omega)]
      rw [specReplaceGo_of_some pat rep hp rest i hfind]
      simp

/-! ## Claim C7 -/

/-- C7: `substituteMacro(M, text)` replaces every occurrence of the macro
token `__M__` in the source with the replacement text — it agrees with the
specification-level left-to-right replace-all — and in particular a source
containing `__BASE_TYPE__` twice has both occurrences replaced. -/
theorem substituteMacro_replaces_every_occurrence :
    (∀ (macro_name substitute_text text : List Char),
      substituteMacroIn macro_name substitute_text text =
        specReplaceAll (('_' :: '_' :: macro_name) ++ ['_', '_'])
          substitute_text text) ∧
    substituteMacroIn ("BASE_TYPE").data ("double").data
        ("x = (__BASE_TYPE__)a; y = (__BASE_TYPE__)b;").data
      = ("x = (double)a; y = (double)b;").data := by
  constructor
  · intro macro_name substitute_text text
    unfold substituteMacroIn iReplaceSubstring specReplaceAll
    rw [if_neg (by simp), if_neg (by simp)]
    exact iReplaceLoop_eq_spec _ _ (by simp) _ [] text (by omega)
  · decide

/-! ## Source composition and kernel compilation

Source: `common/source/DeviceManagement.cpp`, `DeviceSourceImpl::include`
(lines 268-270), `iExportDeviceFunctions` (lines 112-117),
`compileAllKernels` (lines 506-535), `compileKernel` (lines 488-503),
`iCreateBuildError` (lines 178-184).  The OpenCL driver's program build is
opaque: it is a function from the composed source text to a
`BuildOutcome`.  A compiled kernel handle is modelled by its name (the
`DeviceKernelImpl` stores the `cl::Kernel` plus the name read back from
`CL_KERNEL_FUNCTION_NAME`).  The camelCase `checkThat` used here is
declared but not defined in the tree; it is the `check_that` of
Assertions.cpp (same signature, DEBUG-gated), so the same `debug`
parameter models it. -/

/-- What the driver does with one fully composed program source: build
successfully, yielding the kernel names discoverable in the program
(`CL_PROGRAM_KERNEL_NAMES`), or fail with a diagnostic build log
(`CL_PROGRAM_BUILD_LOG`). -/
inductive BuildOutcome
  | success (kernel_names : List (List Char))
  | failure (build_log : List Char)

/-- The method `DeviceSourceImpl::include`:
`text_ = source_to_include.text_ + "\n" + text_` — the included source
ends up ahead of the existing text. -/
def includeText (included text : List Char) : List Char :=
  included ++ '\n' :: text

/-- The function `iCreateBuildError`: a `std::runtime_error` whose message
is "Error when building OpenCL source:" followed by two newlines
(`iNewLine`) and the program's build log, verbatim. -/
def iCreateBuildError (build_log : List Char) : List Char :=
  ("Error when building OpenCL source:").data ++ ['\n'] ++ ['\n'] ++
    build_log

/-- The message of the `std::runtime_error` thrown by `compileKernel`
(line 502) when the built program has no kernel of the requested name. -/
def iKernelAbsentMessage : List Char :=
  ("Source does not contain required kernel.").data

/-- The function `compileAllKernels` (lines 506-535): after the DEBUG-only
empty-source guard, copy the argument, `include` the shared device
functions into the copy, hand the composed text to the driver; a build
failure is wrapped by `iCreateBuildError` (carrying the build log), a
success yields one kernel handle per discovered kernel name. -/
def compileAllKernels (debug : Bool) (device_functions kernel_source :
    List Char) (build : List Char → BuildOutcome) :
    Except (List Char) (List (List Char)) :=
  if debug && kernel_source.isEmpty then
    .error (("Empty kernel provided.").data)
  else
    match build (includeText device_functions kernel_source) with
    | .failure build_log => .error (iCreateBuildError build_log)
    | .success kernel_names => .ok kernel_names

/-- The function `compileKernel` (lines 488-503): compile every kernel in
the source, return the first whose name matches `kernel_name`, and throw
the kernel-absent `std::runtime_error` when none does. -/
def compileKernel (debug : Bool) (device_functions kernel_source
    kernel_name : List Char) (build : List Char → BuildOutcome) :
    Except (List Char) (List Char) :=
  if debug && (kernel_source.isEmpty || kernel_name.length == 0) then
    .error (("Empty kernel provided.").data)
  else
    match compileAllKernels debug device_functions kernel_source build with
    | .error e => .error e
    | .ok kernel_names =>
      match kernel_names.find? (fun n => n == kernel_name) with
      | some k => .ok k
      | none => .error iKernelAbsentMessage

/-! ## Claim C8 -/

/-- C8: a compilation failure raises an error whose message carries the
compiler's diagnostic build log verbatim (the build error); a successful
build of a program that contains no kernel with the requested name raises
the distinct kernel-absent error; the two failure kinds have provably
different messages for every build log, and neither case returns a
success. -/
theorem compileKernel_error_taxonomy :
    (∀ (debug : Bool) (device_functions kernel_source kernel_name
        build_log : List Char) (build : List Char → BuildOutcome),
      kernel_source ≠ [] → kernel_name ≠ [] →
      build (includeText device_functions kernel_source)
        = .failure build_log →
      compileKernel debug device_functions kernel_source kernel_name build
        = .error (("Error when building OpenCL source:").data ++ ['\n'] ++
            ['\n'] ++ build_log)) ∧
    (∀ (debug : Bool) (device_functions kernel_source kernel_name : List
        Char) (kernel_names : List (List Char))
        (build : List Char → BuildOutcome),
      kernel_source ≠ [] → kernel_name ≠ [] →
      build (includeText device_functions kernel_source)
        = .success kernel_names →
      kernel_name ∉ kernel_names →
      compileKernel debug device_functions kernel_source kernel_name build
        = .error iKernelAbsentMessage) ∧
    (∀ build_log : List Char,
      iCreateBuildError build_log ≠ iKernelAbsentMessage) := by
  refine ⟨?_, ?_, ?_⟩
  · intro debug dfn src name log build hsrc hname hb
    cases src with
    | nil => exact absurd rfl hsrc
    | cons a as =>
      cases name with
      | nil => exact absurd rfl hname
      | cons b bs =>
        unfold compileKernel compileAllKernels
        simp only [List.isEmpty_cons, List.length_cons, hb,
          Bool.or_self, Bool.and_false]
        rw [if_neg (by simp), if_neg (by simp)]
        rfl
  · intro debug dfn src name names build hsrc hname hb hmem
    cases src with
    | nil => exact absurd rfl hsrc
    | cons a as =>
      cases name with
      | nil => exact absurd rfl hname
      | cons b bs =>
        unfold compileKernel compileAllKernels
        simp only [hb]
        rw [if_neg (by simp), if_neg (by simp)]
        have hfind : names.find? (fun n => n == (b :: bs)) = none := by
          rw [List.find?_eq_none]
          intro x hx
          simp only [beq_iff_eq]
          intro hcontra
          exact hmem (hcontra ▸ hx)
        change (match List.find? (fun n => n == b :: bs) names with
          | some k => Except.ok k
          | none => Except.error iKernelAbsentMessage)
          = Except.error iKernelAbsentMessage
        rw [hfind]
  · intro log h
    have h2 : (some 'E' : Option Char) = some 'S' := by
      calc (some 'E' : Option Char)
          = List.head? (iCreateBuildError log) := rfl
        _ = List.head? iKernelAbsentMessage := by rw [h]
        _ = some 'S' := rfl
    exact absurd h2 (by decide)

/-- C8 witness: a concrete failing build yields the message with the log
appended; a concrete successful build without the requested name yields
the kernel-absent message. -/
theorem compileKernel_error_taxonomy_witness :
    compileKernel false [] ("bad src").data ("bad_add").data
        (fun _ => BuildOutcome.failure (("line 1: syntax error").data))
      = Except.error (("Error when building OpenCL source:").data ++
          ['\n'] ++ ['\n'] ++ ("line 1: syntax error").data) ∧
    compileKernel false [] ("ok src").data ("add").data
        (fun _ => BuildOutcome.success [("simple_add").data])
      = Except.error iKernelAbsentMessage := by
  have h := compileKernel_error_taxonomy
  exact ⟨h.1 false [] (("bad src").data) (("bad_add").data)
      (("line 1: syntax error").data) _ (by decide) (by decide) rfl,
    h.2.1 false [] (("ok src").data) (("add").data)
      [("simple_add").data] _ (by decide) (by decide) rfl (by decide)⟩

/-! ## Claim C10

The aliasing structure of `DeviceSource` objects: a store of live
`DeviceSourceImpl` texts indexed by creation order, so that the C++
mutation (`include`) and the copy constructor are observable. -/

/-- The live `DeviceSourceImpl` objects, in creation order. -/
structure SourceStore where
  srcs : List (List Char)

/-- The text held by a `DeviceSource` (its `toString()`). -/
def getSourceText (st : SourceStore) (i : Nat) : List Char :=
  st.srcs.getD i []

/-- The `DeviceSource` copy constructor (lines 292-295): a fresh impl
holding a copy of the other impl's text. -/
def copySource (st : SourceStore) (i : Nat) : SourceStore × Nat :=
  (⟨st.srcs ++ [getSourceText st i]⟩, st.srcs.length)

/-- The method `include` applied to a stored source: mutate the target's
text to `included + "\n" + text`. -/
def includeInto (st : SourceStore) (target : Nat) (included : List Char) :
    SourceStore :=
  ⟨st.srcs.set target (includeText included (getSourceText st target))⟩

/-- The source composition performed by `compileAllKernels` (lines
506-519): `DeviceSource source_to_compile = kernel_source;` (copy
constructor), then `source_to_compile.include(iExportDeviceFunctions())`,
then `toString()` of the copy is handed to the driver.  Returns the store
after the call and the composed text that is built. -/
def compileAllKernelsCompose (st : SourceStore) (argId : Nat)
    (device_functions : List Char) : SourceStore × List Char :=
  let cp := copySource st argId
  let st2 := includeInto cp.1 cp.2 device_functions
  (st2, getSourceText st2 cp.2)

/-- C10: `compileAllKernels` builds the program from a copy of its
argument with the shared device-functions source composed ahead of it —
the helper text, then a newline, then the caller's text — and does not
modify the caller's `DeviceSource`: its `toString()` is the same before
and after the call. -/
theorem compileAllKernels_copies_argument (st : SourceStore) (argId : Nat)
    (device_functions : List Char) (hvalid : argId < st.srcs.length)
    (hnonempty : getSourceText st argId ≠ []) :
    getSourceText (compileAllKernelsCompose st argId device_functions).1
        argId
      = getSourceText st argId ∧
    (compileAllKernelsCompose st argId device_functions).2
      = device_functions ++ '\n' :: getSourceText st argId := by
  constructor
  · unfold compileAllKernelsCompose copySource includeInto getSourceText
    simp only [List.getD_eq_getElem?_getD]
    rw [List.getElem?_set_ne (by omega), List.getElem?_append,
      if_pos hvalid]
  · unfold compileAllKernelsCompose copySource includeInto includeText
      getSourceText
    simp only [List.getD_eq_getElem?_getD]
    rw [List.getElem?_set_self (by simp), List.getElem?_concat_length]
    simp

/-- C10 witness: a concrete store with one caller source: the composed
text is the device functions, a newline, then the caller's text, and the
caller's text is unchanged. -/
theorem compileAllKernels_copies_argument_witness :
    getSourceText
        (compileAllKernelsCompose ⟨[("kernel text").data]⟩ 0
          (("device functions").data)).1 0
      = ("kernel text").data ∧
    (compileAllKernelsCompose ⟨[("kernel text").data]⟩ 0
        (("device functions").data)).2
      = ("device functions\nkernel text").data := by
  have h := compileAllKernels_copies_argument ⟨[("kernel text").data]⟩ 0
    (("device functions").data) (by decide) (by decide)
  exact ⟨h.1, h.2.trans (by decide)⟩

end Amsla
